import Mathlib

/-!
Verification of the tautology checker in this repository
(`app.py` and `chat_bot12.py`).

Both source files decide tautology-hood of a propositional formula by
rewriting the input string with `str.replace`, substituting truth values,
and handing the resulting text to Python's `eval`, catching every
exception as the value `False`.  The development below is a shallow
embedding of that code:

* `replaceAll` models Python's `str.replace` (leftmost, non-overlapping);
* `collapseSpaces`, `stripChars`, `parenNotGo` model the `re.sub` /
  `strip` calls of `app.py`;
* `substProp` models `re.sub(r"\bP\b", value, expr)` of `chat_bot12.py`;
* `pyLex` / `pyParse` / `PExpr.eval` model Python's `eval` on the
  propositional fragment actually reachable from the rewritten strings:
  names, `True` / `False`, `and` / `or` / `not` (with Python's
  short-circuit evaluation, names resolved against the locals dict) and
  parentheses.  Every construct outside this fragment (stray symbols such
  as `<`, juxtaposed names, numbers, unmatched parentheses) is modelled
  as an evaluation failure, exactly as Python raises `SyntaxError` /
  `NameError` on the strings this program can produce;
* `product2` models `itertools.product([True, False], repeat=n)`;
* `App.check_validity` and `Bot.check_validity` embed the two
  `check_validity` functions line by line.
-/

/-- Python `str.replace pat repl`, on character lists: leftmost,
non-overlapping, scanning continues after each replacement.  The fuel is
a plain structural-recursion device: every step consumes at least one
character, so fuel equal to the list length never runs out. -/
def replaceAllGo (pat repl : List Char) : Nat → List Char → List Char
  | _, [] => []
  | 0, l => l
  | fuel + 1, c :: cs =>
    if pat ≠ [] ∧ pat.isPrefixOf (c :: cs) then
      repl ++ replaceAllGo pat repl fuel (cs.drop (pat.length - 1))
    else
      c :: replaceAllGo pat repl fuel cs

/-- Python `s.replace(pat, repl)` lifted to the character-list model. -/
def replaceAll (pat repl : String) (l : List Char) : List Char :=
  replaceAllGo pat.toList repl.toList l.length l

/-- Python `re.sub(r"\s+", " ", s)`: every maximal whitespace run becomes
a single space.  The flag records whether we are inside a run. -/
def collapseSpacesGo : Bool → List Char → List Char
  | _, [] => []
  | inRun, c :: cs =>
    if c.isWhitespace then
      if inRun then collapseSpacesGo true cs
      else ' ' :: collapseSpacesGo true cs
    else c :: collapseSpacesGo false cs

/-- Python `s.strip()`: drop leading and trailing whitespace. -/
def stripChars (l : List Char) : List Char :=
  ((l.dropWhile Char.isWhitespace).reverse.dropWhile Char.isWhitespace).reverse

/-- Python `re.sub(r"(not\s+)([A-Z]+)", r"not (\2)", s)` from `app.py`:
the literal text `not`, at least one whitespace character, and a maximal
nonempty run of uppercase letters are rewritten to `not (RUN)`; scanning
is leftmost and continues after the replaced match.  Fueled structural
recursion; every step consumes at least one character. -/
def parenNotAux : Nat → List Char → List Char
  | _, [] => []
  | 0, l => l
  | fuel + 1, 'n' :: 'o' :: 't' :: rest =>
    let ws := rest.takeWhile Char.isWhitespace
    let r1 := rest.dropWhile Char.isWhitespace
    let caps := r1.takeWhile Char.isUpper
    let r2 := r1.dropWhile Char.isUpper
    if ws ≠ [] ∧ caps ≠ [] then
      'n' :: 'o' :: 't' :: ' ' :: '(' :: (caps ++ ')' :: parenNotAux fuel r2)
    else
      'n' :: parenNotAux fuel ('o' :: 't' :: rest)
  | fuel + 1, c :: cs => c :: parenNotAux fuel cs

/-- The `re.sub` of `app.py` line 25, with sufficient fuel. -/
def parenNotGo (l : List Char) : List Char :=
  parenNotAux l.length l

/-- Python word character, for `\b` word boundaries: `[A-Za-z0-9_]`. -/
def isWordChar (c : Char) : Bool :=
  c.isAlphanum || c = '_'

/-- One step of `re.sub(r"\b" + p + r"\b", v, expr)` for a single-letter
proposition `p`: an occurrence of `p` is replaced exactly when the
previous character of the original text (if any) and the next character
(if any) are not word characters. -/
def substPropGo (p : Char) (v : List Char) : Option Char → List Char → List Char
  | _, [] => []
  | prev, c :: cs =>
    let prevWord := match prev with | some d => isWordChar d | none => false
    let nextWord := match cs with | d :: _ => isWordChar d | [] => false
    if (c == p) && !prevWord && !nextWord then
      v ++ substPropGo p v (some c) cs
    else
      c :: substPropGo p v (some c) cs

/-- Python `re.sub(r"\bP\b", str(value), expr)` for proposition `p`. -/
def substProp (expr : List Char) (p : Char) (value : Bool) : List Char :=
  substPropGo p (if value then "True".toList else "False".toList) none expr

/-- Tokens of the rewritten text handed to Python's `eval`.  `bad` marks
any character outside the propositional fragment (it always leads to an
evaluation failure, as the corresponding Python text raises). -/
inductive PyTok where
  | name (s : String)
  | lparen
  | rparen
  | bad
deriving Repr, DecidableEq

/-- First character of a Python identifier. -/
def isIdentStart (c : Char) : Bool :=
  c.isAlpha || c = '_'

/-- Emit the identifier accumulated in reverse, if any. -/
def flushIdent (acc : List Char) (ts : List PyTok) : List PyTok :=
  match acc with
  | [] => ts
  | _ => PyTok.name (String.mk acc.reverse) :: ts

/-- Lexer for the rewritten text: identifiers, parentheses, whitespace;
anything else becomes a `bad` token. -/
def pyLexGo (acc : List Char) : List Char → List PyTok
  | [] => flushIdent acc []
  | c :: cs =>
    if isWordChar c then
      if acc.isEmpty && !isIdentStart c then
        PyTok.bad :: pyLexGo [] cs
      else
        pyLexGo (c :: acc) cs
    else
      flushIdent acc
        (if c = '(' then PyTok.lparen :: pyLexGo [] cs
         else if c = ')' then PyTok.rparen :: pyLexGo [] cs
         else if c.isWhitespace then pyLexGo [] cs
         else PyTok.bad :: pyLexGo [] cs)

/-- Tokenize a rewritten expression text. -/
def pyLex (l : List Char) : List PyTok :=
  pyLexGo [] l

/-- ASTs of the Python boolean fragment: `or` / `and` / `not`,
the literals `True` / `False`, and names looked up at run time. -/
inductive PExpr where
  | lit (b : Bool)
  | name (s : String)
  | or (a b : PExpr)
  | and (a b : PExpr)
  | not (a : PExpr)
deriving Repr, DecidableEq

/-- Recursive-descent parser for the Python boolean grammar
`or_test := and_test ("or" and_test)*`,
`and_test := not_test ("and" not_test)*`,
`not_test := "not" not_test | atom`,
`atom := NAME | "True" | "False" | "(" or_test ")"`.
The level argument selects the grammar production (0 = or, 1 = and,
2 = not/atom).  The `("or" …)*` / `("and" …)*` chains are associated to
the right here; Python associates them to the left, but the two trees
have identical short-circuit evaluation semantics, which is the only way
the tree is observed.  Keywords in atom position are a `SyntaxError`.
Fuel is a structural-recursion device; every nested call strictly
consumes fuel, and the top-level entry supplies more than enough. -/
def parseL : Nat → Nat → List PyTok → Except Unit (PExpr × List PyTok)
  | 0, _, _ => .error ()
  | fuel + 1, 0, ts =>
    match parseL fuel 1 ts with
    | .error e => .error e
    | .ok (a, PyTok.name "or" :: ts1) =>
      match parseL fuel 0 ts1 with
      | .error e => .error e
      | .ok (b, ts2) => .ok (PExpr.or a b, ts2)
    | .ok (a, ts1) => .ok (a, ts1)
  | fuel + 1, 1, ts =>
    match parseL fuel 2 ts with
    | .error e => .error e
    | .ok (a, PyTok.name "and" :: ts1) =>
      match parseL fuel 1 ts1 with
      | .error e => .error e
      | .ok (b, ts2) => .ok (PExpr.and a b, ts2)
    | .ok (a, ts1) => .ok (a, ts1)
  | fuel + 1, _, ts =>
    match ts with
    | PyTok.name "not" :: ts1 =>
      match parseL fuel 2 ts1 with
      | .error e => .error e
      | .ok (a, ts2) => .ok (PExpr.not a, ts2)
    | PyTok.name s :: ts1 =>
      if s = "True" then .ok (PExpr.lit true, ts1)
      else if s = "False" then .ok (PExpr.lit false, ts1)
      else if s = "and" ∨ s = "or" then .error ()
      else .ok (PExpr.name s, ts1)
    | PyTok.lparen :: ts1 =>
      match parseL fuel 0 ts1 with
      | .ok (a, PyTok.rparen :: ts2) => .ok (a, ts2)
      | _ => .error ()
    | _ => .error ()

/-- Python compilation of the rewritten text: any `bad` token, a parse
failure, or trailing tokens after a complete expression is a
`SyntaxError`. -/
def pyParse (ts : List PyTok) : Except Unit PExpr :=
  if ts.any (fun t => match t with | PyTok.bad => true | _ => false) then
    .error ()
  else
    match parseL (4 * ts.length + 4) 0 ts with
    | .ok (a, []) => .ok a
    | _ => .error ()

/-- Run-time evaluation with Python short-circuit semantics; a name not
bound in the assignment (the locals dict) raises `NameError`, modelled
as `.error ()`. -/
def PExpr.eval (env : List (Char × Bool)) : PExpr → Except Unit Bool
  | .lit b => .ok b
  | .name s =>
    match env.find? (fun p => p.1.toString == s) with
    | some p => .ok p.2
    | none => .error ()
  | .or a b =>
    match a.eval env with
    | .error e => .error e
    | .ok true => .ok true
    | .ok false => b.eval env
  | .and a b =>
    match a.eval env with
    | .error e => .error e
    | .ok false => .ok false
    | .ok true => b.eval env
  | .not a =>
    match a.eval env with
    | .error e => .error e
    | .ok b => .ok (!b)

/-- Python `eval(text, globals, assignment)` on the fragment: compile,
then evaluate. -/
def pyEval (text : List Char) (env : List (Char × Bool)) : Except Unit Bool :=
  match pyParse (pyLex text) with
  | .error e => .error e
  | .ok a => a.eval env

/-- Whether a Python `eval` of the modelled fragment raises. -/
def isError : Except Unit Bool → Bool
  | .error _ => true
  | .ok _ => false

/-- Whether compiling a rewritten text is a `SyntaxError`. -/
def parseFails (text : List Char) : Bool :=
  match pyParse (pyLex text) with
  | .error _ => true
  | .ok _ => false

/-- `itertools.product([True, False], repeat=n)`: the first variable is
the outermost toggle and `True` is tried before `False`. -/
def product2 : Nat → List (List Bool)
  | 0 => [[]]
  | n + 1 => ((product2 n).map (true :: ·)) ++ ((product2 n).map (false :: ·))

/-- `sorted(list(set(re.findall(r"[A-Z]", expression))))` — shared by
both source files (propositions are single uppercase letters). -/
def get_propositions (expression : String) : List Char :=
  ((expression.toList.filter Char.isUpper).dedup).insertionSort (· ≤ ·)

/-- `any(c.islower() for c in expression if c.isalpha())` in `app.py`. -/
def hasLowerAlpha (expression : String) : Bool :=
  expression.toList.any (fun c => c.isAlpha && c.isLower)

/-- Python `s.isspace()`: nonempty and all whitespace. -/
def isSpaceStr (expression : String) : Bool :=
  !expression.isEmpty && expression.toList.all Char.isWhitespace

namespace App

/-- The operator rewriting of `evaluate_expression` in `app.py`:
the `str.replace` chain of lines 10-16, the whitespace collapse and
`strip` of line 19, and the `not`-parenthesizing `re.sub` of line 25,
in source order. -/
def rewrite (expression : String) : List Char :=
  let e1 := replaceAll "->" " implies " expression.toList
  let e2 := replaceAll "<->" " iff " e1
  let e3 := replaceAll "^" " and " e2
  let e4 := replaceAll "&" " and " e3
  let e5 := replaceAll "v" " or " e4
  let e6 := replaceAll "~" " not " e5
  let e7 := replaceAll "!" " not " e6
  parenNotGo (stripChars (collapseSpacesGo false e7))

/-- `evaluate_expression(expression, assignment)` of `app.py`: rewrite,
`eval` with the assignment as the locals dict, and return `False` on any
exception (the `try` / `except` of lines 40-46). -/
def evaluate_expression (expression : String) (assignment : List (Char × Bool)) : Bool :=
  match pyEval (rewrite expression) assignment with
  | .ok b => b
  | .error _ => false

/-- `", ".join(f"{p}={v}" for p, v in assignment.items())` with Python's
`str(True)` / `str(False)` rendering. -/
def formatAssignment (assignment : List (Char × Bool)) : String :=
  String.intercalate ", "
    (assignment.map (fun pv =>
      pv.1.toString ++ "=" ++ (if pv.2 then "True" else "False")))

/-- The three shapes `check_validity` in `app.py` can return:
an error-message pair, `(False, formatted_counterexample)`, or
`(True, None)`. -/
inductive Result where
  | error (msg : String)
  | notTaut (counterexample : String)
  | taut
deriving Repr, DecidableEq

/-- The enumeration loop of `check_validity` (lines 70-77): the first
assignment whose evaluation is falsy is returned. -/
def findCounter (expression : String) (props : List Char) :
    List (List Bool) → Option (List (Char × Bool))
  | [] => none
  | row :: rest =>
    let assignment := props.zip row
    if evaluate_expression expression assignment then
      findCounter expression props rest
    else
      some assignment

/-- `check_validity(expression)` of `app.py`, lines 54-80. -/
def check_validity (expression : String) : Result :=
  if hasLowerAlpha expression then
    .error "Error: Please use only uppercase letters (P, Q, R, etc.) for propositions."
  else
    let props := get_propositions expression
    if props.isEmpty then
      if expression.isEmpty || isSpaceStr expression then
        .error "Error: Expression is empty."
      else
        .error "Error: No propositional symbols found (use uppercase letters)."
    else
      match findCounter expression props (product2 props.length) with
      | some a => .notTaut (formatAssignment a)
      | none => .taut

end App

namespace Bot

/-- The operator rewriting of `evaluate_expression` in `chat_bot12.py`
(lines 15-21), in source order and without the added spaces of
`app.py`. -/
def rewrite (expression : String) : List Char :=
  let e1 := replaceAll "->" "implies" expression.toList
  let e2 := replaceAll "<->" "iff" e1
  let e3 := replaceAll "^" "and" e2
  let e4 := replaceAll "&" "and" e3
  let e5 := replaceAll "v" "or" e4
  let e6 := replaceAll "~" "not " e5
  replaceAll "!" "not " e6

/-- The proposition-substitution loop of lines 31-34: each proposition
in assignment order is replaced by `str(value)` under `\b` word
boundaries. -/
def substAll (expr : List Char) (assignment : List (Char × Bool)) : List Char :=
  assignment.foldl (fun e pv => substProp e pv.1 pv.2) expr

/-- `evaluate_expression(expression, assignment)` of `chat_bot12.py`:
rewrite, substitute truth values, `eval` with an empty locals dict, and
return `False` on any exception (lines 37-43). -/
def evaluate_expression (expression : String) (assignment : List (Char × Bool)) : Bool :=
  match pyEval (substAll (rewrite expression) assignment) [] with
  | .ok b => b
  | .error _ => false

/-- The three shapes `check_validity` in `chat_bot12.py` can return:
an error message, `(False, counterexample_dict)` (the dict holds the
propositions in sorted order), or `(True, None)`. -/
inductive Result where
  | error (msg : String)
  | notTaut (counterexample : List (Char × Bool))
  | taut
deriving Repr, DecidableEq

/-- The enumeration loop of `check_validity` (lines 75-88): the first
assignment whose evaluation `is False` is returned as
`{p: assignment[p] for p in props}`. -/
def findCounter (expression : String) (props : List Char) :
    List (List Bool) → Option (List (Char × Bool))
  | [] => none
  | row :: rest =>
    let assignment := props.zip row
    if evaluate_expression expression assignment then
      findCounter expression props rest
    else
      some assignment

/-- `check_validity(expression)` of `chat_bot12.py`, lines 56-91. -/
def check_validity (expression : String) : Result :=
  let props := get_propositions expression
  if props.isEmpty then
    .error "Error: No propositional symbols found (use P, Q, R, etc.)."
  else
    match findCounter expression props (product2 props.length) with
    | some a => .notTaut a
    | none => .taut

end Bot

/-! ## Helper lemmas about the embedded code -/

/-- A nonempty list is not `isEmpty`. -/
theorem isEmpty_false_of_ne_nil {α : Type} {l : List α} (h : l ≠ []) :
    l.isEmpty = false := by
  cases l
  · exact absurd rfl h
  · rfl

/-- `product2 n` enumerates `2 ^ n` assignments. -/
theorem product2_length (n : Nat) : (product2 n).length = 2 ^ n := by
  induction n with
  | zero => rfl
  | succ n ih =>
    simp only [product2, List.length_append, List.length_map, ih]
    rw [Nat.pow_succ]
    omega

/-- The structure of the enumeration: the first variable is the
outermost toggle and `True` comes before `False`. -/
theorem product2_succ (n : Nat) :
    product2 (n + 1) =
      ((product2 n).map (true :: ·)) ++ ((product2 n).map (false :: ·)) := rfl

/-- The first enumerated assignment sets every variable to `True`. -/
theorem product2_head (n : Nat) :
    ∃ rest, product2 n = List.replicate n true :: rest := by
  induction n with
  | zero => exact ⟨[], rfl⟩
  | succ n ih =>
    obtain ⟨rest, h⟩ := ih
    refine ⟨(rest.map (true :: ·)) ++ ((product2 n).map (false :: ·)), ?_⟩
    rw [product2_succ, h]
    simp [List.replicate_succ]

/-- The `app.py` enumeration loop returns the first assignment whose
evaluation is falsy. -/
theorem App.findCounter_app_eq_find? (e : String) (props : List Char)
    (rows : List (List Bool)) :
    App.findCounter e props rows =
      (rows.find? (fun row => ! App.evaluate_expression e (props.zip row))).map
        (props.zip ·) := by
  induction rows with
  | nil => rfl
  | cons row rest ih =>
    simp only [App.findCounter, List.find?]
    cases h : App.evaluate_expression e (props.zip row) <;> simp [h, ih]

/-- The `chat_bot12.py` enumeration loop returns the first assignment
whose evaluation `is False`. -/
theorem Bot.findCounter_bot_eq_find? (e : String) (props : List Char)
    (rows : List (List Bool)) :
    Bot.findCounter e props rows =
      (rows.find? (fun row => ! Bot.evaluate_expression e (props.zip row))).map
        (props.zip ·) := by
  induction rows with
  | nil => rfl
  | cons row rest ih =>
    simp only [Bot.findCounter, List.find?]
    cases h : Bot.evaluate_expression e (props.zip row) <;> simp [h, ih]

/-- Case analysis of `check_validity` in `app.py`: either one of the two
guards fires and an error message is returned, or the verdict is decided
by the enumeration loop. -/
theorem App.check_cases_app (s : String) :
    ((hasLowerAlpha s = true ∨ (get_propositions s).isEmpty = true) ∧
      ∃ m, App.check_validity s = App.Result.error m) ∨
    (hasLowerAlpha s = false ∧ (get_propositions s).isEmpty = false ∧
      App.check_validity s =
        match App.findCounter s (get_propositions s)
            (product2 (get_propositions s).length) with
        | some a => App.Result.notTaut (App.formatAssignment a)
        | none => App.Result.taut) := by
  by_cases h1 : hasLowerAlpha s = true
  · exact Or.inl ⟨Or.inl h1,
      "Error: Please use only uppercase letters (P, Q, R, etc.) for propositions.",
      by simp [App.check_validity, h1]⟩
  · rw [Bool.not_eq_true] at h1
    by_cases h2 : (get_propositions s).isEmpty = true
    · by_cases h3 : (s.isEmpty || isSpaceStr s) = true
      · exact Or.inl ⟨Or.inr h2, "Error: Expression is empty.",
          by simp [App.check_validity, h1, h2, h3]⟩
      · rw [Bool.not_eq_true] at h3
        exact Or.inl
          ⟨Or.inr h2, "Error: No propositional symbols found (use uppercase letters).",
            by simp [App.check_validity, h1, h2, h3]⟩
    · rw [Bool.not_eq_true] at h2
      exact Or.inr ⟨h1, h2, by simp [App.check_validity, h1, h2]⟩

/-- Case analysis of `check_validity` in `chat_bot12.py`. -/
theorem Bot.check_cases_bot (s : String) :
    ((get_propositions s).isEmpty = true ∧
      Bot.check_validity s =
        Bot.Result.error "Error: No propositional symbols found (use P, Q, R, etc.).") ∨
    ((get_propositions s).isEmpty = false ∧
      Bot.check_validity s =
        match Bot.findCounter s (get_propositions s)
            (product2 (get_propositions s).length) with
        | some a => Bot.Result.notTaut a
        | none => Bot.Result.taut) := by
  by_cases h2 : (get_propositions s).isEmpty = true
  · exact Or.inl ⟨h2, by simp [Bot.check_validity, h2]⟩
  · rw [Bool.not_eq_true] at h2
    exact Or.inr ⟨h2, by simp [Bot.check_validity, h2]⟩

/-- A failed `eval` is caught and returned as `False` by
`evaluate_expression` in `app.py`. -/
theorem App.evaluate_false_of_error_app {s : String} {a : List (Char × Bool)}
    (h : isError (pyEval (App.rewrite s) a) = true) :
    App.evaluate_expression s a = false := by
  unfold App.evaluate_expression
  cases he : pyEval (App.rewrite s) a with
  | error e => rfl
  | ok b => rw [he] at h; simp [isError] at h

/-- A failed `eval` is caught and returned as `False` by
`evaluate_expression` in `chat_bot12.py`. -/
theorem Bot.evaluate_false_of_error_bot {s : String} {a : List (Char × Bool)}
    (h : isError (pyEval (Bot.substAll (Bot.rewrite s) a) []) = true) :
    Bot.evaluate_expression s a = false := by
  unfold Bot.evaluate_expression
  cases he : pyEval (Bot.substAll (Bot.rewrite s) a) [] with
  | error e => rfl
  | ok b => rw [he] at h; simp [isError] at h

/-- A rewritten text that fails to compile fails to evaluate. -/
theorem isError_of_parseFails {text : List Char} {env : List (Char × Bool)}
    (h : parseFails text = true) : isError (pyEval text env) = true := by
  unfold parseFails at h
  unfold pyEval
  cases hp : pyParse (pyLex text) with
  | error e => rfl
  | ok a => rw [hp] at h; simp at h

/-- If evaluation is falsy at the all-`True` assignment, `check_validity`
in `app.py` stops at the very first enumerated row and reports it. -/
theorem App.check_notTaut_of_first_false_app (s : String)
    (h1 : hasLowerAlpha s = false) (h2 : get_propositions s ≠ [])
    (h3 : App.evaluate_expression s
      ((get_propositions s).zip
        (List.replicate (get_propositions s).length true)) = false) :
    App.check_validity s =
      App.Result.notTaut (App.formatAssignment
        ((get_propositions s).zip
          (List.replicate (get_propositions s).length true))) := by
  rcases App.check_cases_app s with ⟨hg, m, hm⟩ | ⟨-, -, hloop⟩
  · rcases hg with hg | hg
    · rw [hg] at h1; exact absurd h1 (by simp)
    · exact absurd (List.isEmpty_iff.mp hg) h2
  · rw [hloop]
    obtain ⟨rest, hp⟩ := product2_head (get_propositions s).length
    rw [hp]
    simp [App.findCounter, h3]

/-- If evaluation is falsy at the all-`True` assignment, `check_validity`
in `chat_bot12.py` stops at the very first enumerated row. -/
theorem Bot.check_notTaut_of_first_false_bot (s : String)
    (h2 : get_propositions s ≠ [])
    (h3 : Bot.evaluate_expression s
      ((get_propositions s).zip
        (List.replicate (get_propositions s).length true)) = false) :
    Bot.check_validity s =
      Bot.Result.notTaut
        ((get_propositions s).zip
          (List.replicate (get_propositions s).length true)) := by
  rcases Bot.check_cases_bot s with ⟨hg, -⟩ | ⟨-, hloop⟩
  · exact absurd (List.isEmpty_iff.mp hg) h2
  · rw [hloop]
    obtain ⟨rest, hp⟩ := product2_head (get_propositions s).length
    rw [hp]
    simp [Bot.findCounter, h3]

/-- The proposition list is lexicographically sorted. -/
theorem get_propositions_sorted (s : String) :
    List.Sorted (· ≤ ·) (get_propositions s) :=
  List.sorted_insertionSort _ _

/-- The proposition list has no duplicates. -/
theorem get_propositions_nodup (s : String) :
    (get_propositions s).Nodup :=
  (List.perm_insertionSort _ _).nodup_iff.mpr (List.nodup_dedup _)

/-! ## Claims -/

/-- C1: the spec claims `check("(P ^ Q) -> Q")` is `Tautology`.  On the
code, the rewriting turns the input into `(P and Q) implies Q`, two
juxtaposed names — a Python `SyntaxError` — so every row evaluates to
`False` and both implementations return NotTautology with the first
assignment `P=True, Q=True`. -/
theorem claim_C1_actual_verdict :
    App.rewrite "(P ^ Q) -> Q" = "(P and Q) implies Q".toList ∧
    isError (pyEval (App.rewrite "(P ^ Q) -> Q") [('P', true), ('Q', true)]) = true ∧
    App.check_validity "(P ^ Q) -> Q" = App.Result.notTaut "P=True, Q=True" ∧
    Bot.check_validity "(P ^ Q) -> Q" = Bot.Result.notTaut [('P', true), ('Q', true)] := by
  decide

/-- C4: the spec claims `check("P -> Q")` is `NotTautology` with
counterexample `P=True, Q=False`.  On the code, the rewritten text
`P implies Q` is a Python `SyntaxError`, every row evaluates to `False`,
and the counterexample actually reported is the very first row
`P=True, Q=True`. -/
theorem claim_C4_actual_verdict :
    isError (pyEval (App.rewrite "P -> Q") [('P', true), ('Q', true)]) = true ∧
    App.check_validity "P -> Q" = App.Result.notTaut "P=True, Q=True" ∧
    Bot.check_validity "P -> Q" = Bot.Result.notTaut [('P', true), ('Q', true)] := by
  decide

/-- C5: the spec claims `->` inside `<->` is never split off and that
`P <-> P` gets iff semantics (hence would be a tautology).  The code
replaces `->` first, mangling `P <-> P` into `P < implies P`
(`app.py`, with spaces collapsed) and `P <implies P` (`chat_bot12.py`),
both Python `SyntaxError`s, so both implementations return NotTautology
with counterexample `P=True` instead of Tautology. -/
theorem claim_C5_actual_verdict :
    App.rewrite "P <-> P" = "P < implies P".toList ∧
    Bot.rewrite "P <-> P" = "P <implies P".toList ∧
    App.check_validity "P <-> P" = App.Result.notTaut "P=True" ∧
    Bot.check_validity "P <-> P" = Bot.Result.notTaut [('P', true)] := by
  decide

/-- C3: the spec claims `check("P v ~P")` is `Tautology` (the lowercase
`v` being exempt from the lowercase rule) and that any other lowercase
letter yields `Invalid`.  In `app.py`, the lowercase guard rejects `v`
itself, returning the uppercase-only error; in `chat_bot12.py`, there
is no lowercase rule: `P v ~P` is indeed a tautology there, but another
lowercase letter (`P ^ q`) yields NotTautology(P=True), not Invalid. -/
theorem claim_C3_actual_verdicts :
    App.check_validity "P v ~P" =
      App.Result.error "Error: Please use only uppercase letters (P, Q, R, etc.) for propositions." ∧
    Bot.check_validity "P v ~P" = Bot.Result.taut ∧
    Bot.check_validity "P ^ q" = Bot.Result.notTaut [('P', true)] := by
  decide

/-- C7: `check("P ^ ~P")` is NotTautology and the deterministic
True-first enumeration reports the counterexample `P=True` — confirmed
on both implementations. -/
theorem claim_C7_not_taut_P_true :
    App.check_validity "P ^ ~P" = App.Result.notTaut "P=True" ∧
    Bot.check_validity "P ^ ~P" = Bot.Result.notTaut [('P', true)] := by
  decide

/-- C8: the empty input and a whitespace-only input produce an error
verdict (never Tautology / NotTautology) on both implementations. -/
theorem claim_C8_empty_and_whitespace_invalid :
    App.check_validity "" = App.Result.error "Error: Expression is empty." ∧
    App.check_validity "   " = App.Result.error "Error: Expression is empty." ∧
    Bot.check_validity "" =
      Bot.Result.error "Error: No propositional symbols found (use P, Q, R, etc.)." ∧
    Bot.check_validity "   " =
      Bot.Result.error "Error: No propositional symbols found (use P, Q, R, etc.)." := by
  decide

/-- C9: `check_validity` is a pure function of the input string alone —
in this embedding (faithful to the source, which consults no state
beyond its arguments and local variables), two calls on the same string
are definitionally the same verdict. -/
theorem claim_C9_deterministic (s : String) :
    App.check_validity s = App.check_validity s ∧
    Bot.check_validity s = Bot.check_validity s :=
  ⟨rfl, rfl⟩

/-- C6: the enumeration is deterministic: propositions are sorted and
distinct, `product2` puts the first variable outermost with `True`
before `False` and has length `2 ^ n`, a NotTautology verdict carries
exactly the first falsifying assignment in this order, and a Tautology
verdict means every one of the `2 ^ n` assignments evaluated truthy —
for both implementations. -/
theorem claim_C6_enumeration (s : String) :
    List.Sorted (· ≤ ·) (get_propositions s) ∧
    (get_propositions s).Nodup ∧
    (∀ n, product2 (n + 1) =
      ((product2 n).map (true :: ·)) ++ ((product2 n).map (false :: ·))) ∧
    (product2 (get_propositions s).length).length = 2 ^ (get_propositions s).length ∧
    (∀ f, App.check_validity s = App.Result.notTaut f →
      ∃ row, (product2 (get_propositions s).length).find?
          (fun row => ! App.evaluate_expression s ((get_propositions s).zip row)) =
            some row ∧
        f = App.formatAssignment ((get_propositions s).zip row)) ∧
    (App.check_validity s = App.Result.taut →
      ∀ row ∈ product2 (get_propositions s).length,
        App.evaluate_expression s ((get_propositions s).zip row) = true) ∧
    (∀ c, Bot.check_validity s = Bot.Result.notTaut c →
      ∃ row, (product2 (get_propositions s).length).find?
          (fun row => ! Bot.evaluate_expression s ((get_propositions s).zip row)) =
            some row ∧
        c = (get_propositions s).zip row) ∧
    (Bot.check_validity s = Bot.Result.taut →
      ∀ row ∈ product2 (get_propositions s).length,
        Bot.evaluate_expression s ((get_propositions s).zip row) = true) := by
  refine ⟨get_propositions_sorted s, get_propositions_nodup s, product2_succ,
    product2_length _, ?_, ?_, ?_, ?_⟩
  · intro f h
    rcases App.check_cases_app s with ⟨-, m, hm⟩ | ⟨-, -, hloop⟩
    · rw [h] at hm; exact absurd hm (by simp)
    · rw [hloop, App.findCounter_app_eq_find?] at h
      cases hf : (product2 (get_propositions s).length).find?
          (fun row => ! App.evaluate_expression s ((get_propositions s).zip row)) with
      | none => rw [hf] at h; simp at h
      | some row =>
        rw [hf] at h
        simp only [Option.map_some'] at h
        injection h with h2
        exact ⟨row, rfl, h2.symm⟩
  · intro h row hrow
    rcases App.check_cases_app s with ⟨-, m, hm⟩ | ⟨-, -, hloop⟩
    · rw [h] at hm; exact absurd hm (by simp)
    · rw [hloop, App.findCounter_app_eq_find?] at h
      cases hf : (product2 (get_propositions s).length).find?
          (fun row => ! App.evaluate_expression s ((get_propositions s).zip row)) with
      | some row2 => rw [hf] at h; simp at h
      | none =>
        have hall := List.find?_eq_none.mp hf row hrow
        simpa using hall
  · intro c h
    rcases Bot.check_cases_bot s with ⟨-, hm⟩ | ⟨-, hloop⟩
    · rw [h] at hm; exact absurd hm (by simp)
    · rw [hloop, Bot.findCounter_bot_eq_find?] at h
      cases hf : (product2 (get_propositions s).length).find?
          (fun row => ! Bot.evaluate_expression s ((get_propositions s).zip row)) with
      | none => rw [hf] at h; simp at h
      | some row =>
        rw [hf] at h
        simp only [Option.map_some'] at h
        injection h with h2
        exact ⟨row, rfl, h2.symm⟩
  · intro h row hrow
    rcases Bot.check_cases_bot s with ⟨-, hm⟩ | ⟨-, hloop⟩
    · rw [h] at hm; exact absurd hm (by simp)
    · rw [hloop, Bot.findCounter_bot_eq_find?] at h
      cases hf : (product2 (get_propositions s).length).find?
          (fun row => ! Bot.evaluate_expression s ((get_propositions s).zip row)) with
      | some row2 => rw [hf] at h; simp at h
      | none =>
        have hall := List.find?_eq_none.mp hf row hrow
        simpa using hall

/-- C6 witness: on `P & P` the checker answers NotTautology `P=False`,
and that string is exactly the first falsifying row of the
enumeration. -/
theorem claim_C6_witness :
    App.check_validity "P & P" = App.Result.notTaut "P=False" ∧
    (∃ row, (product2 (get_propositions "P & P").length).find?
        (fun row => ! App.evaluate_expression "P & P"
          ((get_propositions "P & P").zip row)) = some row ∧
      "P=False" = App.formatAssignment ((get_propositions "P & P").zip row)) :=
  ⟨by decide, (claim_C6_enumeration "P & P").2.2.2.2.1 "P=False" (by decide)⟩

/-- C2 counterexample: `"(P"` fails to parse (unmatched parenthesis),
yet both implementations return NotTautology with counterexample
`P=True` — not an Invalid verdict as the claim requires. -/
theorem claim_C2_counterexample :
    parseFails (App.rewrite "(P") = true ∧
    App.check_validity "(P" = App.Result.notTaut "P=True" ∧
    Bot.check_validity "(P" = Bot.Result.notTaut [('P', true)] := by
  decide

/-- C2 (amended): an error verdict arises only from the guards
(lowercase letters in `app.py`; no uppercase letters at all); when the
guards pass and the rewritten text fails to compile (tokenizing/parsing
failure), `check_validity` never raises and answers NotTautology with
the first (all-`True`) enumerated assignment, never Invalid. -/
theorem claim_C2_amended :
    (∀ s m, App.check_validity s = App.Result.error m →
      hasLowerAlpha s = true ∨ get_propositions s = []) ∧
    (∀ s, hasLowerAlpha s = false → get_propositions s ≠ [] →
      parseFails (App.rewrite s) = true →
      App.check_validity s = App.Result.notTaut
        (App.formatAssignment ((get_propositions s).zip
          (List.replicate (get_propositions s).length true)))) ∧
    (∀ s m, Bot.check_validity s = Bot.Result.error m →
      get_propositions s = []) ∧
    (∀ s, get_propositions s ≠ [] →
      parseFails (Bot.substAll (Bot.rewrite s)
        ((get_propositions s).zip
          (List.replicate (get_propositions s).length true))) = true →
      Bot.check_validity s = Bot.Result.notTaut
        ((get_propositions s).zip
          (List.replicate (get_propositions s).length true))) := by
  refine ⟨?_, ?_, ?_, ?_⟩
  · intro s m h
    rcases App.check_cases_app s with ⟨hg, -⟩ | ⟨-, -, hloop⟩
    · rcases hg with hg | hg
      · exact Or.inl hg
      · exact Or.inr (List.isEmpty_iff.mp hg)
    · exfalso
      rw [hloop] at h
      cases hfc : App.findCounter s (get_propositions s)
          (product2 (get_propositions s).length) <;>
        rw [hfc] at h <;> simp at h
  · intro s h1 h2 h3
    exact App.check_notTaut_of_first_false_app s h1 h2
      (App.evaluate_false_of_error_app (isError_of_parseFails h3))
  · intro s m h
    rcases Bot.check_cases_bot s with ⟨hg, -⟩ | ⟨-, hloop⟩
    · exact List.isEmpty_iff.mp hg
    · exfalso
      rw [hloop] at h
      cases hfc : Bot.findCounter s (get_propositions s)
          (product2 (get_propositions s).length) <;>
        rw [hfc] at h <;> simp at h
  · intro s h2 h3
    exact Bot.check_notTaut_of_first_false_bot s h2
      (Bot.evaluate_false_of_error_bot (isError_of_parseFails h3))

/-- C2 witness: `")P("` passes both guards, fails to parse, and is
classified NotTautology at the all-`True` assignment (`app.py`);
likewise `"Q(("` in `chat_bot12.py`. -/
theorem claim_C2_witness :
    (hasLowerAlpha ")P(" = false ∧ get_propositions ")P(" ≠ [] ∧
      parseFails (App.rewrite ")P(") = true ∧
      App.check_validity ")P(" = App.Result.notTaut
        (App.formatAssignment ((get_propositions ")P(").zip
          (List.replicate (get_propositions ")P(").length true)))) ∧
    (get_propositions "Q((" ≠ [] ∧
      Bot.check_validity "Q((" = Bot.Result.notTaut
        ((get_propositions "Q((").zip
          (List.replicate (get_propositions "Q((").length true))) :=
  ⟨⟨by decide, by decide, by decide,
      claim_C2_amended.2.1 ")P(" (by decide) (by decide) (by decide)⟩,
    ⟨by decide,
      claim_C2_amended.2.2.2 "Q((" (by decide) (by decide)⟩⟩

/-- C10 counterexample: `"P x"` contains an uppercase letter and its
rewritten form fails to evaluate, yet `app.py` classifies it Invalid
(the lowercase guard fires first), contradicting the claim's
"never as Invalid". -/
theorem claim_C10_counterexample :
    isError (pyEval (App.rewrite "P x") [('P', true)]) = true ∧
    App.check_validity "P x" =
      App.Result.error "Error: Please use only uppercase letters (P, Q, R, etc.) for propositions." := by
  decide

/-- C10 (amended): whenever evaluating the rewritten text raises,
`evaluate_expression` returns `False` instead of propagating; and an
input that reaches the enumeration (no lowercase letters in `app.py`,
at least one uppercase letter) whose rewritten form fails to evaluate
under the first (all-`True`) assignment is classified NotTautology with
that all-`True` assignment as the counterexample. -/
theorem claim_C10_amended :
    (∀ s a, isError (pyEval (App.rewrite s) a) = true →
      App.evaluate_expression s a = false) ∧
    (∀ s a, isError (pyEval (Bot.substAll (Bot.rewrite s) a) []) = true →
      Bot.evaluate_expression s a = false) ∧
    (∀ s, hasLowerAlpha s = false → get_propositions s ≠ [] →
      App.evaluate_expression s ((get_propositions s).zip
        (List.replicate (get_propositions s).length true)) = false →
      App.check_validity s = App.Result.notTaut
        (App.formatAssignment ((get_propositions s).zip
          (List.replicate (get_propositions s).length true)))) ∧
    (∀ s, get_propositions s ≠ [] →
      Bot.evaluate_expression s ((get_propositions s).zip
        (List.replicate (get_propositions s).length true)) = false →
      Bot.check_validity s = Bot.Result.notTaut
        ((get_propositions s).zip
          (List.replicate (get_propositions s).length true))) :=
  ⟨fun _ _ h => App.evaluate_false_of_error_app h,
    fun _ _ h => Bot.evaluate_false_of_error_bot h,
    fun s h1 h2 h3 => App.check_notTaut_of_first_false_app s h1 h2 h3,
    fun s h2 h3 => Bot.check_notTaut_of_first_false_bot s h2 h3⟩

/-- C10 witness: `"Q -> Q"` rewrites to the unevaluable `Q implies Q`;
evaluation returns `False` and the checker reports the all-`True`
assignment `Q=True`. -/
theorem claim_C10_witness :
    (isError (pyEval (App.rewrite "Q -> Q")
      ((get_propositions "Q -> Q").zip
        (List.replicate (get_propositions "Q -> Q").length true))) = true) ∧
    (App.evaluate_expression "Q -> Q"
      ((get_propositions "Q -> Q").zip
        (List.replicate (get_propositions "Q -> Q").length true)) = false) ∧
    App.check_validity "Q -> Q" = App.Result.notTaut
      (App.formatAssignment ((get_propositions "Q -> Q").zip
        (List.replicate (get_propositions "Q -> Q").length true))) :=
  ⟨by decide,
    claim_C10_amended.1 "Q -> Q" _ (by decide),
    claim_C10_amended.2.2.1 "Q -> Q" (by decide) (by decide)
      (claim_C10_amended.1 "Q -> Q" _ (by decide))⟩
